import Mathlib

/-!
Verification development for the Aadish Chat API relay
(`src/server.js` first and second revisions, and the unnamed handler
revisions `part_000`, `part_001`, `part_002`).

The repository is a thin HTTP relay: `POST /api/chat` validates a chat
request, dispatches on the model identifier to either the Groq streaming
path or the Gemini single-shot path, and relays the output over a chunked
HTTP response.  The definitions below are shallow embeddings of the
handler logic of each revision, translated clause by clause from the
JavaScript source.
-/

namespace Aadish

/-! ## Request field values

JavaScript request-body fields are dynamically typed.  The claims about
numeric parameters only distinguish: a JSON number, a string that
`parseFloat` reads as a number, a value `parseFloat` yields `NaN` on,
and an absent field, so those are the modelled forms.  Numbers are
modelled as rationals. -/

/-- Value of a numeric request field (`temperature`, `top_p`,
`max_completion_tokens`). -/
inductive NumField where
  | num (q : ℚ)
  | numericString (q : ℚ)
  | nonNumeric
  | absent
deriving DecidableEq

/-- JS `parseFloat` on the modelled field forms: a number parses to
itself, a numeric string to the number it denotes, the other forms give
`NaN` (`none`).  `Number.isFinite (parseFloat x)` is `(parseFloat x).isSome`
here. -/
def parseFloatOf : NumField → Option ℚ
  | .num q => some q
  | .numericString q => some q
  | .nonNumeric => none
  | .absent => none

/-- JS `typeof x === 'number'` on the modelled field forms. -/
def isNumberType : NumField → Bool
  | .num _ => true
  | _ => false

/-- JS `Number.isFinite x` on the modelled field forms: true exactly for
a number (no string coercion). -/
def isFiniteNumber : NumField → Bool
  | .num _ => true
  | _ => false

/-- A whitespace character as stripped by JS `String.prototype.trim`
(the common ASCII whitespace forms). -/
def wsChar (c : Char) : Bool := c = ' ' ∨ c = '\t' ∨ c = '\n' ∨ c = '\r'

/-- JS `s.trim()`: the string with its leading and trailing whitespace
removed (computed on the character list so that it evaluates inside the
kernel). -/
def jsTrim (s : String) : String :=
  ⟨((s.data.dropWhile wsChar).reverse.dropWhile wsChar).reverse⟩

/-- Value of the `message` request field: a string, some non-string
value, or absent. -/
inductive MsgField where
  | str (s : String)
  | nonString
  | absent
deriving DecidableEq

/-- `!message || typeof message !== 'string' || message.trim() === ''`
(identical in every revision): a string is invalid iff it trims to empty
(`!message` catches `""`, which also trims to empty); every non-string
or absent value is invalid. -/
def messageInvalid : MsgField → Bool
  | .str s => jsTrim s = ""
  | _ => true

/-- The string carried by a valid `message` field. -/
def msgText : MsgField → String
  | .str s => s
  | _ => ""

/-! ## Generation parameters sent upstream, per revision -/

/-- `src/server.js` (both revisions), `generationConfig.temperature` and
the `ChatGroq` `temperature`:
`typeof temperature === 'number' ? temperature : 1.0` — a numeric value
is forwarded unchanged, with no clamping. -/
def serverTemperature (t : NumField) : ℚ :=
  match t with
  | .num q => q
  | _ => 1

/-- `src/server.js` (both revisions), `generationConfig.topP` and the
`ChatGroq` `topP`: `typeof top_p === 'number' ? top_p : 1.0`. -/
def serverTopP (p : NumField) : ℚ :=
  match p with
  | .num q => q
  | _ => 1

/-- `part_000` `validatedConfig.temperature`:
`Number.isFinite(parseFloat(temperature)) ? Math.max(0, Math.min(2, parseFloat(temperature))) : 1.0`. -/
def validatedTemperature (t : NumField) : ℚ :=
  match parseFloatOf t with
  | some q => max 0 (min 2 q)
  | none => 1

/-- `part_000` `validatedConfig.topP`:
`Number.isFinite(parseFloat(top_p)) ? Math.max(0, Math.min(1, parseFloat(top_p))) : 1.0`. -/
def validatedTopP (p : NumField) : ℚ :=
  match parseFloatOf p with
  | some q => max 0 (min 1 q)
  | none => 1

/-- `part_001` second revision, `validatedConfig.temperature`:
`Number.isFinite(temperature) ? Math.max(0, Math.min(2, temperature)) : 1.0`
(no `parseFloat`, so numeric strings fall to the default). -/
def v2Temperature (t : NumField) : ℚ :=
  match t with
  | .num q => max 0 (min 2 q)
  | _ => 1

/-- `part_001` second revision, `validatedConfig.topP`:
`Number.isFinite(top_p) ? Math.max(0, Math.min(1, top_p)) : 1.0`. -/
def v2TopP (p : NumField) : ℚ :=
  match p with
  | .num q => max 0 (min 1 q)
  | _ => 1

/-! ## History entries and conversation assembly

A history entry is a JS object whose `role` and `content` fields may be
absent.  Truthiness of an optional string (`!msg?.role`,
`!msg?.content`, `system || ...`) is falsity of `truthy`. -/

/-- One entry of the inbound `history` array. -/
structure HistEntry where
  role : Option String
  content : Option String
deriving DecidableEq

/-- JS truthiness of an optional string field: present and non-empty. -/
def truthy : Option String → Bool
  | some s => s ≠ ""
  | none => false

/-- The default system prompt used by every revision. -/
def defaultSystem : String := "You are a helpful AI assistant."

/-- JS `system || "You are a helpful AI assistant."` on the `system`
field. -/
def strOrDefault (system : Option String) : String :=
  match system with
  | some s => if s = "" then defaultSystem else s
  | none => defaultSystem

/-- A LangChain message as built by the Groq paths: `SystemMessage`,
`HumanMessage` or `AIMessage`; the carried content is the (possibly
absent) field value passed to the constructor. -/
inductive LCMsg where
  | sys (c : Option String)
  | human (c : Option String)
  | ai (c : Option String)
deriving DecidableEq

/-- `src/server.js` (both revisions, lines 159-163) history mapping:
`if (msg.role === 'user') return new HumanMessage(msg.content);
if (msg.role === 'assistant') return new AIMessage(msg.content);
return null;` — the `content` field is never checked. -/
def groqMapEntry (m : HistEntry) : Option LCMsg :=
  if m.role = some "user" then some (.human m.content)
  else if m.role = some "assistant" then some (.ai m.content)
  else none

/-- `part_002` first revision (lines 117-123) history mapping
(`previousMessages`): `if (!msg?.role || !msg?.content) return null;`
then user/assistant/system tagging, else `null`; the mapped list is
`filter(Boolean)`ed. -/
def p2MapEntry (m : HistEntry) : Option LCMsg :=
  if ¬ truthy m.role ∨ ¬ truthy m.content then none
  else if m.role = some "user" then some (.human m.content)
  else if m.role = some "assistant" then some (.ai m.content)
  else if m.role = some "system" then some (.sys m.content)
  else none

/-- `src/server.js` Groq conversation assembly (lines 156-173): with a
history array, `[SystemMessage(system || default), ...mapped history,
HumanMessage(message)]`; without one, `[SystemMessage(system || default),
HumanMessage(message)]`.  `map(...).filter(Boolean)` is
`(·.map groqMapEntry).filterMap id`. -/
def groqConversation (message : String) (system : Option String)
    (history : Option (List HistEntry)) : List LCMsg :=
  match history with
  | some h =>
      .sys (some (strOrDefault system)) ::
        ((h.map groqMapEntry).filterMap id ++ [.human (some message)])
  | none => [.sys (some (strOrDefault system)), .human (some message)]

/-- One element of the Gemini `contents` array: a `role` string and the
`parts[0].text` value. -/
structure GEntry where
  role : String
  text : Option String
deriving DecidableEq

/-- Gemini history mapping, identical in both `src/server.js` revisions:
keep `user`/`assistant` entries, renaming `assistant` to `model`. -/
def geminiMapEntry (m : HistEntry) : Option GEntry :=
  if m.role = some "user" ∨ m.role = some "assistant" then
    some ⟨if m.role = some "assistant" then "model" else "user", m.content⟩
  else none

/-- `src/server.js` FIRST revision Gemini payload assembly (lines 66-87):
`contents` starts as `[{role:'user', text: message}]`, a truthy `system`
is `unshift`ed in front with role `'system'`, and the history entries
are then `push`ed AFTER the current message. -/
def geminiContentsV1 (message : String) (system : Option String)
    (history : Option (List HistEntry)) : List GEntry :=
  let base : List GEntry :=
    if truthy system then
      [⟨"system", system⟩, ⟨"user", some message⟩]
    else [⟨"user", some message⟩]
  match history with
  | some h => base ++ (h.map geminiMapEntry).filterMap id
  | none => base

/-- `src/server.js` SECOND revision Gemini payload assembly (lines
253-287): `contents` is built empty, a truthy `system` is pushed first
(with role `'user'`), then the history entries, then the current
message last. -/
def geminiContentsV2 (message : String) (system : Option String)
    (history : Option (List HistEntry)) : List GEntry :=
  (if truthy system then [(⟨"user", system⟩ : GEntry)] else []) ++
    (match history with
     | some h => (h.map geminiMapEntry).filterMap id
     | none => []) ++ [⟨"user", some message⟩]

/-! ## The `POST /api/chat` handler as an event trace

`serverTrace` follows `src/server.js` (first revision) from the top of
the handler to the first upstream call: validation, `res.writeHead`,
the Gemini-model dispatch, the `GOOGLE_API_KEY` check, and the upstream
call carrying the assembled conversation.  The upstream response
handling that follows the call is outside the traced region. -/

/-- The full inbound request body as destructured by every revision
(`message, model, system, history, temperature, top_p,
max_completion_tokens`). -/
structure ChatRequest where
  message : MsgField
  model : Option String
  system : Option String
  history : Option (List HistEntry)
  temperature : NumField
  top_p : NumField
  max_completion_tokens : NumField

/-- Server configuration visible to the handler: whether
`GOOGLE_API_KEY` is set. -/
structure ServerCfg where
  googleKey : Bool

/-- An upstream provider call: the Gemini `fetch` with its `contents`
array, or the Groq `llm.invoke` with its message list. -/
inductive Upstream where
  | geminiFetch (contents : List GEntry)
  | groqInvoke (msgs : List LCMsg)
deriving DecidableEq

/-- An observable handler action. -/
inductive Ev where
  | respond400 (body : List (String × String))
  | writeHead (status : Nat) (headers : List (String × String))
  | checkGoogleKey (present : Bool)
  | write (s : String)
  | endR
  | callUpstream (u : Upstream)
deriving DecidableEq

/-- The streaming headers passed to `res.writeHead(200, ...)`
(identical in every revision). -/
def streamingHeaders : List (String × String) :=
  [("Content-Type", "text/plain; charset=utf-8"),
   ("Transfer-Encoding", "chunked"),
   ("Connection", "keep-alive"),
   ("Cache-Control", "no-cache")]

/-- The body of the 400 validation response,
`res.status(400).json({ error: 'Message is required and cannot be empty' })`
— a JSON object with a single `error` key. -/
def validationErrorBody : List (String × String) :=
  [("error", "Message is required and cannot be empty")]

/-- The in-band error written when a Gemini model is requested without
`GOOGLE_API_KEY` (`src/server.js` line 61). -/
def geminiKeyError : String :=
  "Error: GOOGLE_API_KEY is required for Gemini models."

/-- `const modelId = model || "compound-beta"` — an absent or empty
(falsy) `model` falls back to the default. -/
def modelId (model : Option String) : String :=
  match model with
  | some m => if m = "" then "compound-beta" else m
  | none => "compound-beta"

/-- The fixed Gemini allow-list of `src/server.js` (lines 45-49). -/
def geminiModels : List String :=
  ["gemma-3-27b-it", "gemini-2.0-flash", "gemini-2.5-flash-preview-04-17"]

/-- `src/server.js` first-revision handler, from validation to the first
upstream call, as the ordered list of its observable actions. -/
def serverTrace (cfg : ServerCfg) (req : ChatRequest) : List Ev :=
  if messageInvalid req.message then [.respond400 validationErrorBody]
  else
    let mid := modelId req.model
    .writeHead 200 streamingHeaders ::
      (if mid ∈ geminiModels then
        .checkGoogleKey cfg.googleKey ::
          (if cfg.googleKey then
            [.callUpstream (.geminiFetch
              (geminiContentsV1 (msgText req.message) req.system req.history))]
          else [.write geminiKeyError, .endR])
      else
        [.callUpstream (.groqInvoke
          (groqConversation (msgText req.message) req.system req.history))])

/-- `part_000` `validatedConfig.system`:
`typeof system === 'string' && system.trim() ? system.trim() : default`
(non-string `system` values behave like an absent field here). -/
def p0System (system : Option String) : String :=
  match system with
  | some s => if jsTrim s = "" then defaultSystem else jsTrim s
  | none => defaultSystem

/-- `part_000` prompt messages (lines 125-133):
`[SystemMessage(validatedConfig.system), ...history mapping,
HumanMessage(validatedConfig.message)]` — the history mapping is the
same user/assistant tagging as `groqMapEntry`, and the message is the
trimmed one. -/
def p0PromptMessages (req : ChatRequest) : List LCMsg :=
  .sys (some (p0System req.system)) ::
    ((match req.history with
      | some h => (h.map groqMapEntry).filterMap id
      | none => []) ++ [.human (some (jsTrim (msgText req.message)))])

/-- `part_000` handler, from validation to the chain invocation, as its
ordered observable actions (validation, `res.writeHead(200, ...)`
at lines 84-90, then the Groq call; `part_000` has no Gemini path). -/
def p0Trace (req : ChatRequest) : List Ev :=
  if messageInvalid req.message then [.respond400 validationErrorBody]
  else
    [.writeHead 200 streamingHeaders,
     .callUpstream (.groqInvoke (p0PromptMessages req))]

/-- The committed HTTP status of a trace: the status of its first
response-starting action. -/
def committedStatus : List Ev → Option Nat
  | [] => none
  | .respond400 _ :: _ => some 400
  | .writeHead n _ :: _ => some n
  | _ :: es => committedStatus es

/-- The first upstream call of a trace, if any. -/
def tracedProvider : List Ev → Option Upstream
  | [] => none
  | .callUpstream u :: _ => some u
  | _ :: es => tracedProvider es

/-! ## Response and callback state machines

`NodeRes` models the Node.js response object as seen by the
`src/server.js` Groq callbacks: calling `write` or `end` on a response
whose `writableEnded` flag is already set raises a write-after-end
error (`ERR_STREAM_WRITE_AFTER_END`), counted in `afterEndOps`;
successful writes always succeed in the model. -/

structure NodeRes where
  writableEnded : Bool
  writes : List String
  endCalls : Nat
  afterEndOps : Nat
deriving DecidableEq

/-- `res.write(s)`: append the chunk, or raise write-after-end. -/
def resWrite (r : NodeRes) (s : String) : NodeRes :=
  if r.writableEnded then ⟨r.writableEnded, r.writes, r.endCalls, r.afterEndOps + 1⟩
  else ⟨r.writableEnded, r.writes ++ [s], r.endCalls, r.afterEndOps⟩

/-- `res.end()`: finish the response, or raise if already finished. -/
def resEnd (r : NodeRes) : NodeRes :=
  if r.writableEnded then ⟨r.writableEnded, r.writes, r.endCalls, r.afterEndOps + 1⟩
  else ⟨true, r.writes, r.endCalls + 1, r.afterEndOps⟩

/-- `src/server.js` `handleLLMNewToken` (lines 136-142): `if (token)`
write it; there is no check of the response state.
`Buffer.from(token, 'utf8').toString('utf8')` is the identity on the
token, so the written chunk is the token itself. -/
def sNewToken (r : NodeRes) (token : String) : NodeRes :=
  if token = "" then r else resWrite r token

/-- `src/server.js` `handleLLMEnd` (lines 143-145): `res.end()`
unconditionally. -/
def sLlmEnd (r : NodeRes) : NodeRes := resEnd r

/-- `src/server.js` `handleLLMError` (lines 146-152):
`if (!res.writableEnded) { res.write('Error: ' + msg); res.end(); }`. -/
def sLlmError (r : NodeRes) (msg : String) : NodeRes :=
  if r.writableEnded then r else resEnd (resWrite r ("Error: " ++ msg))

/-- The `src/server.js` token stream: fold the `handleLLMNewToken`
callback over the tokens in arrival order, starting from a fresh
response. -/
def serverStreamRun (tokens : List String) : NodeRes :=
  tokens.foldl sNewToken ⟨false, [], 0, 0⟩

/-! `part_000` keeps its own `responseStarted` / `responseEnded` flags
and funnels every termination through `cleanup` (lines 50-63). -/

/-- The per-request state of the `part_000` handler. -/
structure P0State where
  responseStarted : Bool
  responseEnded : Bool
  res : NodeRes
  sent500 : Bool
deriving DecidableEq

/-- An event hitting the `part_000` handler after setup: a streaming
token, stream end, a stream error, or a local exception reaching the
outer `catch`. -/
inductive P0Event where
  | newToken (t : String)
  | llmEnd
  | llmError (msg : String)
  | serverError

/-- `part_000` `cleanup` (lines 54-63): if not already ended, mark
ended, then either send the 500 JSON body (response not started) or
`res.end()`. -/
def p0Cleanup (s : P0State) : P0State :=
  if s.responseEnded then s
  else if s.responseStarted then
    ⟨s.responseStarted, true, resEnd s.res, s.sent500⟩
  else ⟨s.responseStarted, true, s.res, true⟩

/-- One step of the `part_000` callbacks (lines 100-121) and outer
`catch` (lines 144-148).  `handleLLMNewToken`:
`if (!responseEnded && token) res.write(token)` (the write succeeds in
the model, so its catch branch is not taken); `handleLLMEnd`:
`cleanup()`; `handleLLMError`: `if (!responseEnded) { res.write('Error: ' + msg); cleanup(); }`;
the outer catch: `cleanup()`. -/
def p0Step (s : P0State) : P0Event → P0State
  | .newToken t =>
      if ¬ s.responseEnded ∧ t ≠ "" then
        ⟨s.responseStarted, s.responseEnded, resWrite s.res t, s.sent500⟩
      else s
  | .llmEnd => p0Cleanup s
  | .llmError msg =>
      if s.responseEnded then s
      else p0Cleanup ⟨s.responseStarted, s.responseEnded,
        resWrite s.res ("Error: " ++ msg), s.sent500⟩
  | .serverError => p0Cleanup s

/-- The `part_000` state right after `res.writeHead` succeeded:
started, not ended, fresh response. -/
def p0Started : P0State := ⟨true, false, ⟨false, [], 0, 0⟩, false⟩

/-- The `part_000` token stream: fold `handleLLMNewToken` over the
tokens in arrival order from the just-started state. -/
def p0StreamRun (tokens : List String) : P0State :=
  tokens.foldl (fun s t => p0Step s (.newToken t)) p0Started

/-! ## Buffered JSON response mode (modelled from the spec)

No revision under `src/` reads a `format` field from the request body:
the six source files all destructure only `message, model, system,
history, temperature, top_p, max_completion_tokens`.  The JSON-mode
revision of the handler described by the spec is therefore modelled
from the spec's words here. -/

/-- Modelled from the spec: usage token counts of the JSON envelope,
`usage:{input_tokens, output_tokens}`; the spec calls them approximate
and gives no formula, so they are carried as data. -/
structure Usage where
  input_tokens : Nat
  output_tokens : Nat
deriving DecidableEq

/-- A chunk written to the client by the token relay: a raw text chunk
(text mode) or the single JSON envelope
`{status, response, model, usage}` (json mode). -/
inductive RelayWrite where
  | chunk (s : String)
  | envelope (status : String) (response : String) (model : String) (usage : Usage)
deriving DecidableEq

/-- The relay's per-request output state: the JSON-mode buffer, the
chunks written so far, and whether the response has ended. -/
structure RelayState where
  buffer : String
  writes : List RelayWrite
  ended : Bool
deriving DecidableEq

/-- The response mode selected by the request body. -/
inductive RespMode where
  | text
  | json
deriving DecidableEq

/-- Modelled from the spec: `format: "text" | "json" — optional,
default "text"`; `format == "json"` selects the buffered envelope
mode. -/
def respMode (format : Option String) : RespMode :=
  if format = some "json" then .json else .text

/-- Modelled from the spec: on each received token, text mode writes it
immediately to the open connection, json mode accumulates it into the
buffer (and writes nothing). -/
def relayOnToken (mode : RespMode) (s : RelayState) (t : String) : RelayState :=
  match mode with
  | .text => if t = "" then s else ⟨s.buffer, s.writes ++ [.chunk t], s.ended⟩
  | .json => ⟨s.buffer ++ t, s.writes, s.ended⟩

/-- Modelled from the spec: when the upstream stream signals
completion, json mode flushes the buffer as one JSON envelope
containing status, the concatenated text, the model id and the usage
token counts, then ends; text mode just ends. -/
def relayOnEnd (mode : RespMode) (s : RelayState) (model : String)
    (usage : Usage) : RelayState :=
  match mode with
  | .text => ⟨s.buffer, s.writes, true⟩
  | .json => ⟨s.buffer, s.writes ++ [.envelope "success" s.buffer model usage], true⟩

/-- Fresh relay state at stream start. -/
def relayInit : RelayState := ⟨"", [], false⟩

/-- Fold the token callback over the tokens in arrival order. -/
def relayRun (mode : RespMode) (s : RelayState) (tokens : List String) : RelayState :=
  tokens.foldl (relayOnToken mode) s

/-- Concatenation of a token sequence, in arrival order. -/
def concatAll (l : List String) : String :=
  l.foldl (fun a t => a ++ t) ""

/-! ## Spec-side characterizations of the history filtering

For the refinement claim C6, `specGroqKeep`/`specGroqTag` and
`specP2Keep`/`specP2Tag` restate the spec's words — keep exactly the
recognized entries and tag each by its role — to be compared with the
source-side `map`-then-`filter(Boolean)` pipelines above. -/

/-- Spec side: the `src/server.js` Groq mapping keeps exactly the
entries whose role is `user` or `assistant`. -/
def specGroqKeep (m : HistEntry) : Bool :=
  m.role = some "user" ∨ m.role = some "assistant"

/-- Spec side: role tagging of a kept entry in the `src/server.js`
Groq mapping. -/
def specGroqTag (m : HistEntry) : LCMsg :=
  if m.role = some "user" then .human m.content else .ai m.content

/-- Spec side: the `part_002` mapping keeps exactly the entries with a
truthy role, a truthy content, and a recognized role. -/
def specP2Keep (m : HistEntry) : Bool :=
  truthy m.role ∧ truthy m.content ∧
    (m.role = some "user" ∨ m.role = some "assistant" ∨ m.role = some "system")

/-- Spec side: role tagging of a kept entry in the `part_002`
mapping. -/
def specP2Tag (m : HistEntry) : LCMsg :=
  if m.role = some "user" then .human m.content
  else if m.role = some "assistant" then .ai m.content
  else .sys m.content

/-! ## Helper lemmas -/

/-- Clamping `Math.max lo (Math.min hi q)` lands in `[lo, hi]`. -/
theorem clampBounds (lo hi q : ℚ) (h : lo ≤ hi) :
    lo ≤ max lo (min hi q) ∧ max lo (min hi q) ≤ hi :=
  ⟨le_max_left _ _, max_le h (min_le_left _ _)⟩

/-- A `filterMap` by a guard-then-tag function is the `filter` of the
kept elements followed by the tagging `map`. -/
theorem filterMap_guard {α β : Type} (keep : α → Bool) (tag : α → β) :
    ∀ l : List α,
      l.filterMap (fun m => if keep m then some (tag m) else none) =
        (l.filter keep).map tag := by
  intro l
  induction l with
  | nil => rfl
  | cons a t ih =>
      by_cases h : keep a <;> simp [h, ih]

/-- Pointwise form of the `src/server.js` Groq history mapping: it is
exactly the guard `specGroqKeep` followed by the tag `specGroqTag`. -/
theorem groqMapEntry_eq (m : HistEntry) :
    groqMapEntry m = if specGroqKeep m then some (specGroqTag m) else none := by
  by_cases h1 : m.role = some "user" <;>
    by_cases h2 : m.role = some "assistant" <;>
      simp [groqMapEntry, specGroqKeep, specGroqTag, h1, h2]

/-- Pointwise form of the `part_002` history mapping: it is exactly the
guard `specP2Keep` followed by the tag `specP2Tag`. -/
theorem p2MapEntry_eq (m : HistEntry) :
    p2MapEntry m = if specP2Keep m then some (specP2Tag m) else none := by
  obtain ⟨r, c⟩ := m
  cases r with
  | none => simp [p2MapEntry, specP2Keep, truthy]
  | some rs =>
      cases c with
      | none => simp [p2MapEntry, specP2Keep, truthy]
      | some cs =>
          by_cases hrs : rs = ""
          · simp [p2MapEntry, specP2Keep, truthy, hrs]
          · by_cases hcs : cs = ""
            · simp [p2MapEntry, specP2Keep, truthy, hrs, hcs]
            · by_cases h1 : rs = "user"
              · simp [p2MapEntry, specP2Keep, specP2Tag, truthy, hrs, hcs, h1]
              · by_cases h2 : rs = "assistant"
                · simp [p2MapEntry, specP2Keep, specP2Tag, truthy, hrs, hcs, h1, h2]
                · by_cases h3 : rs = "system" <;>
                    simp [p2MapEntry, specP2Keep, specP2Tag, truthy, hrs, hcs, h1, h2, h3]

/-- Folding the `src/server.js` `handleLLMNewToken` callback over a
token list from a not-ended response appends exactly the non-empty
tokens, in order, and never ends the response. -/
theorem sNewToken_foldl (tokens : List String) :
    ∀ (w : List String) (e a : Nat),
      tokens.foldl sNewToken ⟨false, w, e, a⟩ =
        ⟨false, w ++ tokens.filter (fun t => t ≠ ""), e, a⟩ := by
  induction tokens with
  | nil => intro w e a; simp
  | cons t ts ih =>
      intro w e a
      by_cases h : t = ""
      · simpa [sNewToken, h] using ih w e a
      · have step : sNewToken ⟨false, w, e, a⟩ t = ⟨false, w ++ [t], e, a⟩ := by
          simp [sNewToken, h, resWrite]

        calc (t :: ts).foldl sNewToken ⟨false, w, e, a⟩
            = ts.foldl sNewToken ⟨false, w ++ [t], e, a⟩ := by rw [List.foldl_cons, step]
          _ = ⟨false, (w ++ [t]) ++ ts.filter (fun t => t ≠ ""), e, a⟩ := ih _ e a
          _ = ⟨false, w ++ (t :: ts).filter (fun t => t ≠ ""), e, a⟩ := by
                simp [List.filter_cons, h]

/-- Folding the `part_000` `handleLLMNewToken` callback over a token
list from a started, not-ended state appends exactly the non-empty
tokens, in order, leaving every flag unchanged. -/
theorem p0_newToken_foldl (tokens : List String) :
    ∀ (st s5 : Bool) (w : List String) (e a : Nat),
      tokens.foldl (fun s t => p0Step s (.newToken t)) ⟨st, false, ⟨false, w, e, a⟩, s5⟩ =
        ⟨st, false, ⟨false, w ++ tokens.filter (fun t => t ≠ ""), e, a⟩, s5⟩ := by
  induction tokens with
  | nil => intro st s5 w e a; simp
  | cons t ts ih =>
      intro st s5 w e a
      by_cases h : t = ""
      · simpa [p0Step, h] using ih st s5 w e a
      · have step : p0Step ⟨st, false, ⟨false, w, e, a⟩, s5⟩ (.newToken t) =
            ⟨st, false, ⟨false, w ++ [t], e, a⟩, s5⟩ := by
          simp [p0Step, h, resWrite]

        calc (t :: ts).foldl (fun s t => p0Step s (.newToken t)) ⟨st, false, ⟨false, w, e, a⟩, s5⟩
            = ts.foldl (fun s t => p0Step s (.newToken t)) ⟨st, false, ⟨false, w ++ [t], e, a⟩, s5⟩ := by
              rw [List.foldl_cons, step]
          _ = ⟨st, false, ⟨false, (w ++ [t]) ++ ts.filter (fun t => t ≠ ""), e, a⟩, s5⟩ := ih st s5 _ e a
          _ = ⟨st, false, ⟨false, w ++ (t :: ts).filter (fun t => t ≠ ""), e, a⟩, s5⟩ := by
              simp [List.filter_cons, h]

/-- Folding the json-mode token callback concatenates the tokens onto
the buffer and touches neither the writes nor the ended flag. -/
theorem relayRun_json (tokens : List String) :
    ∀ s : RelayState,
      relayRun .json s tokens =
        ⟨tokens.foldl (fun a t => a ++ t) s.buffer, s.writes, s.ended⟩ := by
  induction tokens with
  | nil => intro s; rfl
  | cons t ts ih =>
      intro s
      calc relayRun .json s (t :: ts)
          = relayRun .json ⟨s.buffer ++ t, s.writes, s.ended⟩ ts := rfl
        _ = ⟨ts.foldl (fun a t => a ++ t) (s.buffer ++ t), s.writes, s.ended⟩ := ih _
        _ = ⟨(t :: ts).foldl (fun a t => a ++ t) s.buffer, s.writes, s.ended⟩ := rfl

/-! ## Claims -/

/-- Claim C1: for a request selecting `format == "json"`, no chunk is
written while tokens arrive — they are accumulated into the buffer —
and when the upstream stream signals completion exactly one JSON
envelope is written, containing the success status, the concatenation
of all tokens in arrival order, the model id and the usage token
counts, after which the response is ended. -/
theorem json_mode_single_envelope (fmt : Option String) (tokens : List String)
    (model : String) (usage : Usage) (h : respMode fmt = .json) :
    (relayRun (respMode fmt) relayInit tokens).writes = [] ∧
    (relayRun (respMode fmt) relayInit tokens).ended = false ∧
    relayOnEnd (respMode fmt) (relayRun (respMode fmt) relayInit tokens) model usage =
      ⟨concatAll tokens, [.envelope "success" (concatAll tokens) model usage], true⟩ := by
  rw [h]
  have hrun : relayRun .json relayInit tokens =
      ⟨concatAll tokens, [], false⟩ := relayRun_json tokens relayInit
  rw [hrun]
  exact ⟨rfl, rfl, rfl⟩

/-- Witness for C1 at `format = "json"`, tokens `["Hel", "lo"]`, the
default model id and usage `⟨2, 2⟩`. -/
theorem json_mode_single_envelope_witness :
    (relayRun (respMode (some "json")) relayInit ["Hel", "lo"]).writes = [] ∧
    (relayRun (respMode (some "json")) relayInit ["Hel", "lo"]).ended = false ∧
    relayOnEnd (respMode (some "json"))
        (relayRun (respMode (some "json")) relayInit ["Hel", "lo"]) "compound-beta" ⟨2, 2⟩ =
      ⟨"Hello", [.envelope "success" "Hello" "compound-beta" ⟨2, 2⟩], true⟩ :=
  json_mode_single_envelope (some "json") ["Hel", "lo"] "compound-beta" ⟨2, 2⟩ (by decide)

/-- Claim C2 (code bug in the first `src/server.js` revision): on the
request `{message:"Hi", system:"S", history:[{role:"user",content:"A"}]}`
the first-revision Gemini assembly emits the history entry AFTER the
current user message — contents are `[system "S", user "Hi", user "A"]`
— while the second revision emits the claimed order with the current
message last. -/
theorem geminiV1_history_after_message :
    geminiContentsV1 "Hi" (some "S") (some [⟨some "user", some "A"⟩]) =
      [⟨"system", some "S"⟩, ⟨"user", some "Hi"⟩, ⟨"user", some "A"⟩] ∧
    (geminiContentsV1 "Hi" (some "S") (some [⟨some "user", some "A"⟩])).getLast? =
      some ⟨"user", some "A"⟩ ∧
    geminiContentsV2 "Hi" (some "S") (some [⟨some "user", some "A"⟩]) =
      [⟨"user", some "S"⟩, ⟨"user", some "A"⟩, ⟨"user", some "Hi"⟩] := by
  refine ⟨by decide, by decide, by decide⟩

/-- Claim C3 counterexample: `src/server.js` forwards a numeric
`temperature` of 5 and a numeric `top_p` of 3 upstream unchanged, far
outside the claimed clamped ranges `[0,2]` and `[0,1]`. -/
theorem server_forwards_unclamped_params :
    serverTemperature (.num 5) = 5 ∧ ¬ serverTemperature (.num 5) ≤ 2 ∧
    serverTopP (.num 3) = 3 ∧ ¬ serverTopP (.num 3) ≤ 1 := by
  refine ⟨rfl, by norm_num [serverTemperature], rfl, by norm_num [serverTopP]⟩

/-- Claim C3 as amended: in the revisions that build a
`validatedConfig` (`part_000` and the second revision of `part_001`),
the temperature sent upstream always lies in `[0,2]` and the topP in
`[0,1]`, whatever the input field holds. -/
theorem validated_params_clamped (t p : NumField) :
    (0 ≤ validatedTemperature t ∧ validatedTemperature t ≤ 2) ∧
    (0 ≤ validatedTopP p ∧ validatedTopP p ≤ 1) ∧
    (0 ≤ v2Temperature t ∧ v2Temperature t ≤ 2) ∧
    (0 ≤ v2TopP p ∧ v2TopP p ≤ 1) := by
  have h02 : (0 : ℚ) ≤ 2 := by norm_num
  have h01 : (0 : ℚ) ≤ 1 := by norm_num
  have h012 : (0 : ℚ) ≤ 1 ∧ (1 : ℚ) ≤ 2 := by norm_num
  have h011 : (0 : ℚ) ≤ 1 ∧ (1 : ℚ) ≤ 1 := by norm_num
  refine ⟨?_, ?_, ?_, ?_⟩
  · cases t with
    | num q => exact clampBounds 0 2 q h02
    | numericString q => exact clampBounds 0 2 q h02
    | nonNumeric => exact h012
    | absent => exact h012
  · cases p with
    | num q => exact clampBounds 0 1 q h01
    | numericString q => exact clampBounds 0 1 q h01
    | nonNumeric => exact h011
    | absent => exact h011
  · cases t with
    | num q => exact clampBounds 0 2 q h02
    | numericString q => exact h012
    | nonNumeric => exact h012
    | absent => exact h012
  · cases p with
    | num q => exact clampBounds 0 1 q h01
    | numericString q => exact h011
    | nonNumeric => exact h011
    | absent => exact h011

/-- Claim C4 counterexample: the 400 validation response body is
`{error: "Message is required and cannot be empty"}` — it carries no
`status` field at all, against the claimed
`{status:"error", error:<message>}` shape. -/
theorem validation_body_lacks_status_field :
    validationErrorBody.lookup "status" = none ∧
    validationErrorBody.lookup "error" = some "Message is required and cannot be empty" ∧
    serverTrace ⟨true⟩ ⟨.absent, none, none, none, .absent, .absent, .absent⟩ =
      [.respond400 validationErrorBody] := by
  refine ⟨by decide, by decide, by decide⟩

/-- Claim C4 as amended: for every request whose message is absent, not
a string, empty or whitespace-only, both the `src/server.js` and the
`part_000` handler answer with the single action
`res.status(400).json({error:<message>})` — status 400, body
`{error:<message>}` (no `status` field) — and no header write and no
upstream call happen. -/
theorem invalid_message_rejected (cfg : ServerCfg) (req : ChatRequest)
    (h : messageInvalid req.message = true) :
    serverTrace cfg req = [.respond400 validationErrorBody] ∧
    p0Trace req = [.respond400 validationErrorBody] ∧
    tracedProvider (serverTrace cfg req) = none ∧
    committedStatus (serverTrace cfg req) = some 400 := by
  refine ⟨?_, ?_, ?_, ?_⟩ <;> simp [serverTrace, p0Trace, h, tracedProvider, committedStatus]

/-- Witness for C4 at a whitespace-only message. -/
theorem invalid_message_rejected_witness :
    messageInvalid (.str "   ") = true ∧
    serverTrace ⟨true⟩ ⟨.str "   ", none, none, none, .absent, .absent, .absent⟩ =
        [.respond400 validationErrorBody] ∧
    p0Trace ⟨.str "   ", none, none, none, .absent, .absent, .absent⟩ =
        [.respond400 validationErrorBody] ∧
    tracedProvider (serverTrace ⟨true⟩ ⟨.str "   ", none, none, none, .absent, .absent, .absent⟩) =
        none ∧
    committedStatus (serverTrace ⟨true⟩ ⟨.str "   ", none, none, none, .absent, .absent, .absent⟩) =
        some 400 := by
  have h := invalid_message_rejected ⟨true⟩
      ⟨.str "   ", none, none, none, .absent, .absent, .absent⟩ (by decide)
  exact ⟨by decide, h.1, h.2.1, h.2.2.1, h.2.2.2⟩

/-- Claim C5 counterexample: the `src/server.js` streaming callbacks do
not observe the ended state — `handleLLMNewToken` on an already-ended
response still calls `res.write` and `handleLLMEnd` still calls
`res.end()`, each an observable write-after-end error. -/
theorem server_callback_writes_after_end :
    sNewToken ⟨true, [], 1, 0⟩ "x" = ⟨true, [], 1, 1⟩ ∧
    sNewToken ⟨true, [], 1, 0⟩ "x" ≠ ⟨true, [], 1, 0⟩ ∧
    sLlmEnd ⟨true, [], 1, 0⟩ = ⟨true, [], 1, 1⟩ := by
  refine ⟨by decide, by decide, by decide⟩

/-- Claim C5 as amended: in the `part_000` revision, whose callbacks
and `cleanup` all guard on the `responseEnded` flag, any state with
`responseEnded` set is terminal — every subsequent token, stream-end,
stream-error or local-exception event leaves the state (writes, end
calls and all) exactly unchanged. -/
theorem p0_ended_is_terminal (s : P0State) (e : P0Event)
    (h : s.responseEnded = true) : p0Step s e = s := by
  cases e <;> simp [p0Step, p0Cleanup, h]

/-- Witness for C5 at an ended state and a token event. -/
theorem p0_ended_is_terminal_witness :
    (⟨true, true, ⟨true, [], 1, 0⟩, false⟩ : P0State).responseEnded = true ∧
    p0Step ⟨true, true, ⟨true, [], 1, 0⟩, false⟩ (.newToken "x") =
      ⟨true, true, ⟨true, [], 1, 0⟩, false⟩ :=
  ⟨rfl, p0_ended_is_terminal ⟨true, true, ⟨true, [], 1, 0⟩, false⟩ (.newToken "x") rfl⟩

/-- Claim C6 counterexample: the `src/server.js` history mapping never
checks the `content` field, so the entry `{role:"user"}` with no
content is NOT excluded — it reaches the assembled conversation as a
`HumanMessage` with absent content. -/
theorem groq_keeps_missing_content_entry :
    groqConversation "Hi" none (some [⟨some "user", none⟩]) =
      [.sys (some defaultSystem), .human none, .human (some "Hi")] ∧
    LCMsg.human none ∈ groqConversation "Hi" none (some [⟨some "user", none⟩]) := by
  refine ⟨by decide, by decide⟩

/-- Claim C6 as amended: each history mapping keeps exactly its
recognized entries, in their original relative order — the
`src/server.js` mapping keeps every entry whose role is `user` or
`assistant` (content unchecked), and the `part_002` first-revision
mapping keeps exactly the entries with a truthy role, a truthy content
and a recognized role; both equal the order-preserving
filter-then-tag of the original array. -/
theorem history_mapping_filters_in_order (h : List HistEntry) :
    (h.map groqMapEntry).filterMap id = (h.filter specGroqKeep).map specGroqTag ∧
    (h.map p2MapEntry).filterMap id = (h.filter specP2Keep).map specP2Tag := by
  constructor
  · calc (h.map groqMapEntry).filterMap id
        = h.filterMap groqMapEntry := by
          rw [List.filterMap_map]; rfl
      _ = h.filterMap (fun m => if specGroqKeep m then some (specGroqTag m) else none) := by
          rw [funext groqMapEntry_eq]
      _ = (h.filter specGroqKeep).map specGroqTag := filterMap_guard _ _ h
  · calc (h.map p2MapEntry).filterMap id
        = h.filterMap p2MapEntry := by
          rw [List.filterMap_map]; rfl
      _ = h.filterMap (fun m => if specP2Keep m then some (specP2Tag m) else none) := by
          rw [funext p2MapEntry_eq]
      _ = (h.filter specP2Keep).map specP2Tag := filterMap_guard _ _ h

/-- Claim C7: for every model identifier, the `src/server.js` dispatch
calls the Gemini upstream exactly when the effective model id is in the
fixed allow-list `geminiModels`, and the Groq upstream exactly
otherwise. -/
theorem provider_dispatch_by_allowlist (req : ChatRequest)
    (h : messageInvalid req.message = false) :
    ((∃ c, tracedProvider (serverTrace ⟨true⟩ req) = some (.geminiFetch c)) ↔
      modelId req.model ∈ geminiModels) ∧
    ((∃ m, tracedProvider (serverTrace ⟨true⟩ req) = some (.groqInvoke m)) ↔
      modelId req.model ∉ geminiModels) := by
  by_cases hm : modelId req.model ∈ geminiModels <;>
    simp [serverTrace, h, hm, tracedProvider]

/-- Witness for C7 at an allow-listed model. -/
theorem provider_dispatch_by_allowlist_witness :
    ((∃ c, tracedProvider
        (serverTrace ⟨true⟩ ⟨.str "Hi", some "gemini-2.0-flash", none, none, .absent, .absent, .absent⟩) =
          some (.geminiFetch c)) ↔
      modelId (some "gemini-2.0-flash") ∈ geminiModels) ∧
    ((∃ m, tracedProvider
        (serverTrace ⟨true⟩ ⟨.str "Hi", some "gemini-2.0-flash", none, none, .absent, .absent, .absent⟩) =
          some (.groqInvoke m)) ↔
      modelId (some "gemini-2.0-flash") ∉ geminiModels) :=
  provider_dispatch_by_allowlist
    ⟨.str "Hi", some "gemini-2.0-flash", none, none, .absent, .absent, .absent⟩ (by decide)

/-- Claim C8: a valid request for an allow-listed Gemini model with no
`GOOGLE_API_KEY` configured produces exactly: the 200 header write,
the key check, one in-band write of the error text
`GOOGLE_API_KEY is required for Gemini models.` (carried behind the
in-band `Error: ` marker), and the connection close — with no upstream
call of any kind. -/
theorem gemini_without_key_early_error (req : ChatRequest)
    (h : messageInvalid req.message = false)
    (hm : modelId req.model ∈ geminiModels) :
    serverTrace ⟨false⟩ req =
      [.writeHead 200 streamingHeaders, .checkGoogleKey false,
       .write geminiKeyError, .endR] ∧
    tracedProvider (serverTrace ⟨false⟩ req) = none ∧
    geminiKeyError = "Error: " ++ "GOOGLE_API_KEY is required for Gemini models." := by
  refine ⟨?_, ?_, by decide⟩ <;> simp [serverTrace, h, hm, tracedProvider]

/-- Witness for C8 at `{message:"Hi", model:"gemini-2.0-flash"}`. -/
theorem gemini_without_key_early_error_witness :
    serverTrace ⟨false⟩ ⟨.str "Hi", some "gemini-2.0-flash", none, none, .absent, .absent, .absent⟩ =
      [.writeHead 200 streamingHeaders, .checkGoogleKey false,
       .write geminiKeyError, .endR] ∧
    tracedProvider
        (serverTrace ⟨false⟩ ⟨.str "Hi", some "gemini-2.0-flash", none, none, .absent, .absent, .absent⟩) =
      none ∧
    geminiKeyError = "Error: " ++ "GOOGLE_API_KEY is required for Gemini models." :=
  gemini_without_key_early_error
    ⟨.str "Hi", some "gemini-2.0-flash", none, none, .absent, .absent, .absent⟩
    (by decide) (by decide)

/-- Claim C9: once the message passes validation, the very first action
of both the `src/server.js` and the `part_000` handler is
`res.writeHead(200, streamingHeaders)` — before the Gemini dispatch,
the `GOOGLE_API_KEY` check and any upstream call — so the committed
HTTP status of every such request is 200, whatever happens later. -/
theorem headers_committed_before_dispatch (cfg : ServerCfg) (req : ChatRequest)
    (h : messageInvalid req.message = false) :
    (serverTrace cfg req).head? = some (.writeHead 200 streamingHeaders) ∧
    committedStatus (serverTrace cfg req) = some 200 ∧
    (p0Trace req).head? = some (.writeHead 200 streamingHeaders) ∧
    committedStatus (p0Trace req) = some 200 := by
  refine ⟨?_, ?_, ?_, ?_⟩ <;> simp [serverTrace, p0Trace, h, committedStatus]

/-- Witness for C9 at `{message:"Hi"}` with no `GOOGLE_API_KEY`. -/
theorem headers_committed_before_dispatch_witness :
    (serverTrace ⟨false⟩ ⟨.str "Hi", none, none, none, .absent, .absent, .absent⟩).head? =
        some (.writeHead 200 streamingHeaders) ∧
    committedStatus (serverTrace ⟨false⟩ ⟨.str "Hi", none, none, none, .absent, .absent, .absent⟩) =
        some 200 ∧
    (p0Trace ⟨.str "Hi", none, none, none, .absent, .absent, .absent⟩).head? =
        some (.writeHead 200 streamingHeaders) ∧
    committedStatus (p0Trace ⟨.str "Hi", none, none, none, .absent, .absent, .absent⟩) =
        some 200 :=
  headers_committed_before_dispatch ⟨false⟩
    ⟨.str "Hi", none, none, none, .absent, .absent, .absent⟩ (by decide)

/-- Claim C10: folding the primary provider's `handleLLMNewToken`
callback over any token sequence writes exactly the non-empty tokens,
in arrival order — in `src/server.js` and in `part_000` alike — so the
streamed output is the concatenation of the non-empty tokens. -/
theorem stream_drops_empty_tokens (tokens : List String) :
    (serverStreamRun tokens).writes = tokens.filter (fun t => t ≠ "") ∧
    (p0StreamRun tokens).res.writes = tokens.filter (fun t => t ≠ "") ∧
    concatAll (serverStreamRun tokens).writes =
      concatAll (tokens.filter (fun t => t ≠ "")) := by
  have hs : serverStreamRun tokens = ⟨false, tokens.filter (fun t => t ≠ ""), 0, 0⟩ := by
    simpa [serverStreamRun] using sNewToken_foldl tokens [] 0 0
  have hp : p0StreamRun tokens =
      ⟨true, false, ⟨false, tokens.filter (fun t => t ≠ ""), 0, 0⟩, false⟩ := by
    simpa [p0StreamRun, p0Started] using p0_newToken_foldl tokens true false [] 0 0
  rw [hs, hp]
  exact ⟨rfl, rfl, rfl⟩

end Aadish
